import Mathlib

/-
  Verification of the metrics and aggregation engine of the
  commercial-events-calendar application (src/src/app/page.tsx).

  The TypeScript source is shallowly embedded: numbers are modelled as
  rationals, timestamps as integers (milliseconds since the Unix epoch),
  JavaScript Map and Set (which preserve insertion order) as association
  lists and duplicate-free lists, and code that throws as Except values.
  The time zone offset is taken to be zero, so the local-midnight
  truncation setHours(0,0,0,0) becomes flooring to a multiple of a day.
-/

namespace CalendarSpec

/-! ## Calendar dates

The application parses date fields with `new Date(value)` and rejects
the result when it is NaN.  Per the interface contract all date fields
are `YYYY-MM-DD`; `parseDate` below accepts exactly the valid calendar
dates in that format, yielding the UTC-midnight timestamp, and rejects
everything else (the NaN case). -/

def isLeapYear (y : Int) : Bool :=
  (y % 4 == 0 && y % 100 != 0) || y % 400 == 0

def daysInMonth (y m : Int) : Int :=
  if m = 2 then (if isLeapYear y then 29 else 28)
  else if m = 4 ∨ m = 6 ∨ m = 9 ∨ m = 11 then 30
  else 31

/-- Days from 1970-01-01 to the civil date y-m-d (proleptic Gregorian). -/
def daysFromCivil (y m d : Int) : Int :=
  let y2 := if m ≤ 2 then y - 1 else y
  let era := y2.fdiv 400
  let yoe := y2 - era * 400
  let mp := (m + 9) % 12
  let doy := (153 * mp + 2).fdiv 5 + d - 1
  let doe := yoe * 365 + yoe.fdiv 4 - yoe.fdiv 100 + doy
  era * 146097 + doe - 719468

def MS_PER_DAY : Int := 86400000

/-- Timestamp (ms) of UTC midnight of a civil date; used to write
concrete inputs in theorems. -/
def mkDateMs (y m d : Int) : Int := daysFromCivil y m d * MS_PER_DAY

def charDigit (c : Char) : Int := (c.toNat : Int) - 48

/-- Embeds `parseDate` (page.tsx): `new Date(value)` restricted to the
`YYYY-MM-DD` date fields of the interface contract; `none` is the NaN
(Invalid Date) case, on which the source throws. -/
def parseDate (s : String) : Option Int :=
  match s.toList with
  | [y1, y2, y3, y4, c1, m1, m2, c2, d1, d2] =>
    if c1 = '-' ∧ c2 = '-' ∧ ([y1, y2, y3, y4, m1, m2, d1, d2].all Char.isDigit) then
      let y := charDigit y1 * 1000 + charDigit y2 * 100 + charDigit y3 * 10 + charDigit y4
      let m := charDigit m1 * 10 + charDigit m2
      let d := charDigit d1 * 10 + charDigit d2
      if 1 ≤ m ∧ m ≤ 12 ∧ 1 ≤ d ∧ d ≤ daysInMonth y m then
        some (daysFromCivil y m d * MS_PER_DAY)
      else none
    else none
  | _ => none

/-- Embeds `toStartOfDay` (page.tsx): `setHours(0,0,0,0)` with zero
time-zone offset, i.e. flooring the timestamp to a multiple of a day. -/
def toStartOfDay (t : Int) : Int := t.fdiv MS_PER_DAY * MS_PER_DAY

/-! ## JavaScript collections

`Set` keeps insertion order of first occurrence; `Map` keeps insertion
order of keys, with `set` overwriting in place. -/

def jsSetAdd (s : List String) (x : String) : List String :=
  if x ∈ s then s else s ++ [x]

/-- Insertion-order set of the elements of a list (JavaScript
`new Set(list)`). -/
def jsSetOf (l : List String) : List String := l.foldl jsSetAdd []

def jsMapSet (m : List (String × α)) (k : String) (v : α) : List (String × α) :=
  if m.any (fun p => p.1 == k) then
    m.map (fun p => if p.1 == k then (k, v) else p)
  else m ++ [(k, v)]

def jsMapGet (m : List (String × α)) (k : String) : Option α :=
  (m.find? (fun p => p.1 == k)).map (fun p => p.2)

/-- Whitespace trimming on both ends (the JavaScript `trim()` applied to
CSV cells), computed on the character list of the string. -/
def strTrim (s : String) : String :=
  ⟨((s.data.dropWhile Char.isWhitespace).reverse.dropWhile Char.isWhitespace).reverse⟩

/-- Lower-casing (the JavaScript `toLowerCase()` applied to CSV
headers), computed characterwise. -/
def strLower (s : String) : String := ⟨s.data.map Char.toLower⟩

/-- Decimal number parsing: models the JavaScript `Number(...)`
conversion applied to the trimmed, nonempty CSV fields; per the
interface contract numeric fields use standard decimal notation.
`none` is the NaN case. -/
def jsNumber (s : String) : Option ℚ :=
  match s.toList with
  | [] => some 0
  | l =>
    let signAndRest : Int × List Char :=
      match l with
      | '-' :: rest => (-1, rest)
      | '+' :: rest => (1, rest)
      | _ => (1, l)
    let sign := signAndRest.1
    let body := signAndRest.2
    let natOfDigits : List Char → Nat :=
      fun cs => cs.foldl (fun n c => n * 10 + (c.toNat - 48)) 0
    match body.splitOn '.' with
    | [ip] =>
      if ip ≠ [] ∧ ip.all Char.isDigit then some (mkRat (sign * natOfDigits ip) 1) else none
    | [ip, fp] =>
      if (ip ≠ [] ∨ fp ≠ []) ∧ ip.all Char.isDigit ∧ fp.all Char.isDigit then
        some (mkRat (sign * (natOfDigits ip * 10 ^ fp.length + natOfDigits fp)) (10 ^ fp.length))
      else none
    | _ => none

/-! ## Data model (the four CSV-shaped tables and derived records) -/

structure EventCsvRow where
  event_id : String
  event_name : String
  description : String
  start_date : String
  end_date : String
  status : String
  target_promos : ℚ
  target_stores : ℚ
deriving DecidableEq

structure CampaignCsvRow where
  campaign_id : String
  event_id : String
  store_id : String
  created_at : String
deriving DecidableEq

structure StoreCsvRow where
  store_id : String
  brand : String
  region : String
  city : String
  commercial : String
  segment : String
  ops_zone : String
  gmv_last_30d : ℚ
  gmv_last_7d : Option ℚ
deriving DecidableEq

structure EventTargetRow where
  event_id : String
  store_id : String
deriving DecidableEq

structure ValidationResult where
  hardErrors : List String
  warnings : List String
deriving DecidableEq

structure EventWithMetrics where
  id : String
  name : String
  description : String
  status : String
  startDate : Int
  endDate : Int
  targetPromos : ℚ
  targetStores : ℚ
  promosToDate : Nat
  storesToDate : Nat
  promosPct : ℚ
  storesPct : ℚ
  fillRate : ℚ
  openEvent : Bool
  gapPromos : ℚ
  gapStores : ℚ
  daysToStart : ℚ
  gmvTarget : ℚ
  gmvCovered : ℚ
  gmvCoverage : ℚ
  gmvGap : ℚ
deriving DecidableEq

structure EventSnapshotRow where
  event_id : String
  /-- Capture time in epoch ms; the source stores an ISO string and
  always reads it back through `new Date(...).getTime()`. -/
  snapshot_at : Int
  target_stores : ℚ
  stores_with_promo : ℚ
  fill_rate : ℚ
  target_promos : ℚ
  promos_to_date : ℚ
  gmv_target : ℚ
  gmv_covered : ℚ
  gmv_coverage : ℚ
deriving DecidableEq

def THIRTY_MINS_MS : Int := 30 * 60 * 1000
def RETENTION_DAYS : Int := 30
def RETENTION_MAX_ROWS : Nat := 2000
def TOLERANCE_48H_MS : Int := 24 * 60 * 60 * 1000
def TOLERANCE_7D_MS : Int := 2 * 24 * 60 * 60 * 1000

/-! ## Snapshot store

`saveEventSnapshots` and `findClosestSnapshot` (page.tsx) read and write
the snapshot history through localStorage; here the history is passed
explicitly (the store is an injected collaborator, and the swallowed
quota-failure path of the write is outside the pure value computed
below). -/

/-- The first-minimizer loop of `findClosestSnapshot`: starting from
`best = b`, replace `best` by `r` only on a strictly smaller distance. -/
def pickClosest (d : α → Int) (b : α) (l : List α) : α :=
  l.foldl (fun best r => if d r < d best then r else best) b

/-- Embeds `findClosestSnapshot` (page.tsx). -/
def findClosestSnapshot (history : List EventSnapshotRow) (eventId : String)
    (targetTs : Int) (toleranceMs : Option Int) : Option EventSnapshotRow :=
  let snapshots := history.filter (fun r => r.event_id == eventId)
  if snapshots.isEmpty then none
  else
    let filtered :=
      match toleranceMs with
      | some tol => snapshots.filter (fun r => decide (|r.snapshot_at - targetTs| ≤ tol))
      | none => snapshots
    match filtered with
    | [] => none
    | b :: rest => some (pickClosest (fun r => |r.snapshot_at - targetTs|) b rest)

/-- One snapshot row built from the current metrics of one event
(the row construction inside `saveEventSnapshots`). -/
def toSnapshotRow (m : EventWithMetrics) (snapshotAt : Int) : EventSnapshotRow :=
  { event_id := m.id
    snapshot_at := snapshotAt
    target_stores := m.targetStores
    stores_with_promo := m.storesToDate
    fill_rate := m.fillRate
    target_promos := m.targetPromos
    promos_to_date := m.promosToDate
    gmv_target := m.gmvTarget
    gmv_covered := m.gmvCovered
    gmv_coverage := m.gmvCoverage }

/-- The dedup pass of `saveEventSnapshots`: drop every existing row whose
event is in the new batch and whose capture time is within 30 minutes of
now. -/
def snapshotsAfterDedup (existing : List EventSnapshotRow)
    (ms : List EventWithMetrics) (now : Int) : List EventSnapshotRow :=
  existing.filter (fun row =>
    !((ms.map (fun m => m.id)).contains row.event_id
      && decide (now - THIRTY_MINS_MS ≤ row.snapshot_at)))

/-- Merge after dedup plus the retention-window filter of
`saveEventSnapshots` (before sorting and truncating). -/
def snapshotsMergedRetained (existing : List EventSnapshotRow)
    (ms : List EventWithMetrics) (now : Int) : List EventSnapshotRow :=
  (snapshotsAfterDedup existing ms now ++ ms.map (fun m => toSnapshotRow m now)).filter
    (fun r => decide (now - RETENTION_DAYS * 24 * 60 * 60 * 1000 ≤ r.snapshot_at))

/-- Capture-time-descending order of `saveEventSnapshots`
(the stable `sort((a, b) => b.time - a.time)`). -/
def snapshotDescRel (a b : EventSnapshotRow) : Prop :=
  b.snapshot_at ≤ a.snapshot_at

instance : DecidableRel snapshotDescRel := fun a b => Int.decLe _ _

instance : IsTotal EventSnapshotRow snapshotDescRel :=
  ⟨fun a b => le_total b.snapshot_at a.snapshot_at⟩

instance : IsTrans EventSnapshotRow snapshotDescRel :=
  ⟨fun _ _ _ hab hbc => le_trans hbc hab⟩

/-- Embeds `saveEventSnapshots` (page.tsx): dedup, merge, retention
filter, stable sort by capture time descending, keep the first 2000.
JavaScript `Array.sort` is a stable sort, so any stable sort by the same
key computes it; `insertionSort` is stable. -/
def saveEventSnapshots (existing : List EventSnapshotRow)
    (ms : List EventWithMetrics) (now : Int) : List EventSnapshotRow :=
  ((snapshotsMergedRetained existing ms now).insertionSort snapshotDescRel).take
    RETENTION_MAX_ROWS

structure EventDeltas where
  deltaFillRate48h : Option ℚ
  deltaFillRate7d : Option ℚ
  deltaGmvCoverage48h : Option ℚ
  deltaGmvCoverage7d : Option ℚ
deriving DecidableEq

/-- Embeds the per-event body of the `eventDeltas` memo (page.tsx). -/
def eventDeltasFor (history : List EventSnapshotRow) (ev : EventWithMetrics)
    (now : Int) : EventDeltas :=
  let s48 := findClosestSnapshot history ev.id (now - 48 * 60 * 60 * 1000) (some TOLERANCE_48H_MS)
  let s7 := findClosestSnapshot history ev.id (now - 7 * 24 * 60 * 60 * 1000) (some TOLERANCE_7D_MS)
  { deltaFillRate48h :=
      match s48 with
      | some s => some (ev.fillRate - s.fill_rate)
      | none => none
    deltaFillRate7d :=
      match s7 with
      | some s => some (ev.fillRate - s.fill_rate)
      | none => none
    deltaGmvCoverage48h :=
      match s48 with
      | some s => if 0 < ev.gmvTarget then some (ev.gmvCoverage - s.gmv_coverage) else none
      | none => none
    deltaGmvCoverage7d :=
      match s7 with
      | some s => if 0 < ev.gmvTarget then some (ev.gmvCoverage - s.gmv_coverage) else none
      | none => none }

/-! ## Metrics engine -/

structure MetricsOptions where
  storesById : Option (List StoreCsvRow)
  allowedStoreIds : Option (List String)
  eventTargets : List EventTargetRow

/-- No options supplied (the `options?` parameter absent). -/
def MetricsOptions.none : MetricsOptions :=
  { storesById := Option.none, allowedStoreIds := Option.none, eventTargets := [] }

/-- JavaScript `Map` built with `new Map(stores.map(s => [s.store_id, s]))`:
a later row with the same id overwrites an earlier one. -/
def storeLookup (stores : List StoreCsvRow) (sid : String) : Option StoreCsvRow :=
  stores.reverse.find? (fun s => s.store_id == sid)

/-- The catalog and scope-filter gates applied to a store id in
`computeEventMetrics` (both skipped when the option is absent). -/
def storeGatesOk (opts : MetricsOptions) (sid : String) : Bool :=
  (match opts.storesById with
   | some stores => stores.any (fun s => s.store_id == sid)
   | none => true)
  && (match opts.allowedStoreIds with
      | some allowed => allowed.contains sid
      | none => true)

/-- The target set of one event (`targetsByEvent.get(eid)` in
`computeEventMetrics`), in insertion order: targets of the event whose
store passes the catalog and scope gates, deduplicated. -/
def targetSetFor (events : List EventCsvRow) (opts : MetricsOptions) (eid : String) :
    List String :=
  jsSetOf ((opts.eventTargets.filter (fun t =>
    t.event_id == eid
    && events.any (fun e => e.event_id == t.event_id)
    && storeGatesOk opts t.store_id)).map (fun t => t.store_id))

/-- The campaigns grouped under one event
(`campaignsByEvent.get(eid) ?? []` in `computeEventMetrics`): pairs of
parsed creation timestamp and store id, in input order; campaigns whose
creation date fails to parse are silently dropped. -/
def eventCampaignsFor (events : List EventCsvRow) (campaigns : List CampaignCsvRow)
    (opts : MetricsOptions) (eid : String) : List (Int × String) :=
  campaigns.filterMap (fun c =>
    if c.event_id == eid
        && events.any (fun e => e.event_id == c.event_id)
        && storeGatesOk opts c.store_id then
      (parseDate c.created_at).map (fun d => (d, c.store_id))
    else Option.none)

/-- The campaigns of the event surviving the date cut and, when the
event is scoped, the target-set gate (the counting loop of
`computeEventMetrics`). -/
def survivingCampaigns (eventCampaigns : List (Int × String)) (todayStart : Int)
    (targetIds : List String) : List (Int × String) :=
  eventCampaigns.filter (fun c =>
    decide (c.1 ≤ todayStart) && (targetIds.isEmpty || targetIds.contains c.2))

/-- The percentage formula shared by `promosPct`, `storesPct` and
`fillRate` in `computeEventMetrics`: `count / target * 100`, 0 when the
target is not positive. -/
def metricsPct (num : Nat) (den : ℚ) : ℚ :=
  if 0 < den then (num : ℚ) / den * 100 else 0

/-- The GMV accumulation loop of `computeEventMetrics`: summed 30-day
GMV over the target set, and over the covered part of the target set;
`(0, 0)` when the event is open or no store catalog was supplied. -/
def eventGmvPair (storesByIdOpt : Option (List StoreCsvRow))
    (targetIds storeList : List String) (hasTargets : Bool) : ℚ × ℚ :=
  match storesByIdOpt with
  | some stores =>
    if hasTargets then
      targetIds.foldl (fun acc sid =>
        match storeLookup stores sid with
        | Option.none => acc
        | some st =>
          (acc.1 + st.gmv_last_30d,
           if storeList.contains sid then acc.2 + st.gmv_last_30d else acc.2))
        (0, 0)
    else (0, 0)
  | Option.none => (0, 0)

/-- The metrics record of one event, given its parsed dates, grouped
campaigns and target set (the success path of the per-event body of
`computeEventMetrics`). -/
def buildEventRow (e : EventCsvRow) (startDate endDate todayStart : Int)
    (eventCampaigns : List (Int × String)) (targetIds : List String)
    (storesByIdOpt : Option (List StoreCsvRow)) : EventWithMetrics :=
  let hasTargets := !targetIds.isEmpty
  let survivors := survivingCampaigns eventCampaigns todayStart targetIds
  let promosToDate := survivors.length
  let storeList := jsSetOf (survivors.map (fun c => c.2))
  let storesToDate := storeList.length
  let targetPromos : ℚ := e.target_promos
  let targetStores : ℚ :=
    if hasTargets then (targetIds.length : ℚ) else e.target_stores
  let gmvPair := eventGmvPair storesByIdOpt targetIds storeList hasTargets
  { id := e.event_id
    name := e.event_name
    description := e.description
    status := e.status
    startDate := startDate
    endDate := endDate
    targetPromos := targetPromos
    targetStores := targetStores
    promosToDate := promosToDate
    storesToDate := storesToDate
    promosPct := metricsPct promosToDate targetPromos
    storesPct := metricsPct storesToDate targetStores
    fillRate := metricsPct storesToDate targetStores
    openEvent := !hasTargets
    gapPromos := max (targetPromos - promosToDate) 0
    gapStores := max (targetStores - storesToDate) 0
    daysToStart := ((toStartOfDay startDate - todayStart : Int) : ℚ) / 86400000
    gmvTarget := gmvPair.1
    gmvCovered := gmvPair.2
    gmvCoverage := if 0 < gmvPair.1 then gmvPair.2 / gmvPair.1 * 100 else 0
    gmvGap := max (gmvPair.1 - gmvPair.2) 0 }

/-- The per-event body of `computeEventMetrics` (page.tsx); throws
(`Except.error`) when the start or end date of the event is invalid,
exactly as the uncaught `parseDate` calls do. -/
def computeRow (events : List EventCsvRow) (campaigns : List CampaignCsvRow)
    (opts : MetricsOptions) (todayStart : Int) (e : EventCsvRow) :
    Except String EventWithMetrics :=
  match parseDate e.start_date with
  | Option.none => .error ("Fecha inválida: " ++ e.start_date)
  | some startDate =>
    match parseDate e.end_date with
    | Option.none => .error ("Fecha inválida: " ++ e.end_date)
    | some endDate =>
      .ok (buildEventRow e startDate endDate todayStart
        (eventCampaignsFor events campaigns opts e.event_id)
        (targetSetFor events opts e.event_id) opts.storesById)

/-- Effectful map over a list in the `Except` monad (`events.map` with a
body that can throw): stops at the first error. -/
def mapExcept (f : α → Except ε β) : List α → Except ε (List β)
  | [] => .ok []
  | a :: as => do
    let b ← f a
    let bs ← mapExcept f as
    pure (b :: bs)

/-- Embeds `computeEventMetrics` (page.tsx).  The per-event grouping maps
`targetsByEvent` and `campaignsByEvent` of the source are reproduced by
the per-event filters `targetSetFor` and `eventCampaignsFor`, which give
exactly the same rows in the same order for every event of `events`. -/
def computeEventMetrics (events : List EventCsvRow) (campaigns : List CampaignCsvRow)
    (today : Int) (opts : MetricsOptions) : Except String (List EventWithMetrics) :=
  mapExcept (computeRow events campaigns opts (toStartOfDay today)) events

/-! ## Entity validator -/

/-- The duplicate-id and date-range checks of the events loop of
`validateData`. -/
def validateEventErrs (events : List EventCsvRow) : List String :=
  (events.foldl (fun (acc : List String × List String) e =>
    let dup := acc.1.contains e.event_id
    let errs1 :=
      if dup then acc.2 ++ ["event_id duplicado en events: " ++ e.event_id] else acc.2
    let seen := if dup then acc.1 else acc.1 ++ [e.event_id]
    let errs2 :=
      match parseDate e.start_date, parseDate e.end_date with
      | some s, some en =>
        if en < s then errs1 ++ ["Evento " ++ e.event_id ++ ": start_date posterior a end_date."]
        else errs1
      | _, _ =>
        errs1 ++ ["Evento " ++ e.event_id ++ ": fechas inválidas (" ++ e.start_date ++ " / "
          ++ e.end_date ++ ")."]
    (seen, errs2)) ([], [])).2

/-- The campaigns loop of `validateData`: duplicate ids and dangling
references. -/
def validateCampaignErrs (eventIds storeIds : List String)
    (campaigns : List CampaignCsvRow) : List String :=
  (campaigns.foldl (fun (acc : List String × List String) c =>
    let dup := acc.1.contains c.campaign_id
    let errs1 := if dup then acc.2 ++ ["campaign_id duplicado: " ++ c.campaign_id] else acc.2
    let seen := if dup then acc.1 else acc.1 ++ [c.campaign_id]
    let errs2 :=
      if eventIds.contains c.event_id then errs1
      else errs1 ++ ["Campaña " ++ c.campaign_id ++ ": event_id no existe en events: " ++ c.event_id]
    let errs3 :=
      if storeIds.contains c.store_id then errs2
      else errs2 ++ ["Campaña " ++ c.campaign_id ++ ": store_id no existe en stores: " ++ c.store_id]
    (seen, errs3)) ([], [])).2

/-- The event-targets loop of `validateData`: duplicate pairs and
dangling references. -/
def validateTargetErrs (eventIds storeIds : List String)
    (eventTargets : List EventTargetRow) : List String :=
  (eventTargets.foldl (fun (acc : List String × List String) t =>
    let key := t.event_id ++ "\t" ++ t.store_id
    let dup := acc.1.contains key
    let errs1 :=
      if dup then
        acc.2 ++ ["event_targets duplicado: event_id=" ++ t.event_id ++ ", store_id=" ++ t.store_id]
      else acc.2
    let seen := if dup then acc.1 else acc.1 ++ [key]
    let errs2 :=
      if eventIds.contains t.event_id then errs1
      else errs1 ++ ["event_targets: event_id no existe en events: " ++ t.event_id]
    let errs3 :=
      if storeIds.contains t.store_id then errs2
      else errs2 ++ ["event_targets: store_id no existe en stores: " ++ t.store_id]
    (seen, errs3)) ([], [])).2

/-- Count of valid targets of one event (`targetsCountByEvent`). -/
def validTargetsCount (eventIds storeIds : List String)
    (eventTargets : List EventTargetRow) (eid : String) : Nat :=
  (eventTargets.filter (fun t =>
    t.event_id == eid && eventIds.contains t.event_id && storeIds.contains t.store_id)).length

/-- Per-event warnings of `validateData` (target count mismatch, open
event). -/
def validateWarnsEvents (eventIds storeIds : List String) (events : List EventCsvRow)
    (eventTargets : List EventTargetRow) : List String :=
  events.foldl (fun ws e =>
    let count := validTargetsCount eventIds storeIds eventTargets e.event_id
    let ws1 :=
      if 0 < count ∧ e.target_stores ≠ (count : ℚ) then
        ws ++ ["Evento " ++ e.event_id ++ " (" ++ e.event_name ++ "): target_stores ("
          ++ toString e.target_stores ++ ") no coincide con count(event_targets)="
          ++ toString count ++ "."]
      else ws
    if count = 0 then
      ws1 ++ ["Evento " ++ e.event_id ++ " (" ++ e.event_name
        ++ "): sin event_targets; se trata como Open Event."]
    else ws1) []

/-- The `eventStartEnd` map of `validateData`: dates of the last event
row with the given id whose dates both parse (later `Map.set` calls
overwrite earlier ones). -/
def eventRangeFor (events : List EventCsvRow) (eid : String) : Option (Int × Int) :=
  ((events.filter (fun e =>
      e.event_id == eid && (parseDate e.start_date).isSome && (parseDate e.end_date).isSome)).getLast?).bind
    (fun e =>
      match parseDate e.start_date, parseDate e.end_date with
      | some s, some en => some (s, en)
      | _, _ => Option.none)

/-- Out-of-range campaign warnings of `validateData`. -/
def validateWarnsCampaignRange (events : List EventCsvRow)
    (campaigns : List CampaignCsvRow) : List String :=
  campaigns.foldl (fun ws c =>
    match eventRangeFor events c.event_id, parseDate c.created_at with
    | some r, some created =>
      if created < r.1 ∨ r.2 < created then
        ws ++ ["Campaña " ++ c.campaign_id ++ ": created_at fuera del rango del evento "
          ++ c.event_id ++ "."]
      else ws
    | _, _ => ws) []

/-- The per-(event, brand) store-id sets of `validateData`
(`targetStoresByEventBrand` and `campaignStoresByEventBrand`), built
over any rows exposing an event id and a store id. -/
def brandKeyedStores (eventIds storeIds : List String) (stores : List StoreCsvRow)
    (rows : List (String × String)) : List (String × List String) :=
  rows.foldl (fun m r =>
    if eventIds.contains r.1 && storeIds.contains r.2 then
      match storeLookup stores r.2 with
      | Option.none => m
      | some store =>
        if store.brand = "" then m
        else
          let key := r.1 ++ "\t" ++ store.brand
          jsMapSet m key (jsSetAdd ((jsMapGet m key).getD []) r.2)
    else m) []

/-- Brand-gap warnings of `validateData`: a brand with targeted stores
in an event but no campaigns of that brand against the event. -/
def validateWarnsBrandGap (eventIds storeIds : List String) (events : List EventCsvRow)
    (campaigns : List CampaignCsvRow) (stores : List StoreCsvRow)
    (eventTargets : List EventTargetRow) : List String :=
  let targetKeyed : List (String × List String) :=
    brandKeyedStores eventIds storeIds stores (eventTargets.map (fun t => (t.event_id, t.store_id)))
  let campaignKeyed : List (String × List String) :=
    brandKeyedStores eventIds storeIds stores (campaigns.map (fun c => (c.event_id, c.store_id)))
  targetKeyed.foldl (fun (ws : List String) (kv : String × List String) =>
    let parts := kv.1.splitOn "\t"
    let eventId := parts.getD 0 ""
    let brand := parts.getD 1 ""
    let campaignStores : List String := (jsMapGet campaignKeyed kv.1).getD []
    if 0 < kv.2.length ∧ campaignStores.length = 0 then
      let evName :=
        match events.find? (fun e => e.event_id == eventId) with
        | some ev => " (" ++ ev.event_name ++ ")"
        | Option.none => ""
      ws ++ ["Brand \"" ++ brand ++ "\" has " ++ toString kv.2.length
        ++ " target store(s) in event " ++ eventId ++ evName ++ " but no campaigns."]
    else ws) []

/-- Embeds `validateData` (page.tsx): the pure cross-table validator
producing blocking hard errors and advisory warnings.  Note that it
performs no per-store field checks; those happen earlier, in
`parseStoresCsv`. -/
def validateData (events : List EventCsvRow) (campaigns : List CampaignCsvRow)
    (stores : List StoreCsvRow) (eventTargets : List EventTargetRow) : ValidationResult :=
  let eventIds := events.map (fun e => e.event_id)
  let storeIds := stores.map (fun s => s.store_id)
  { hardErrors :=
      validateEventErrs events
        ++ validateCampaignErrs eventIds storeIds campaigns
        ++ validateTargetErrs eventIds storeIds eventTargets
    warnings :=
      validateWarnsEvents eventIds storeIds events eventTargets
        ++ validateWarnsCampaignRange events campaigns
        ++ validateWarnsBrandGap eventIds storeIds events campaigns stores eventTargets }

/-! ## CSV parsing (stores table) -/

/-- Embeds the character loop of `parseCsv` (page.tsx). -/
def parseCsvAux : List Char → String → List String → Bool → List (List String) →
    List (List String)
  | [], current, row, _, acc =>
    if current ≠ "" ∨ row ≠ [] then acc ++ [row ++ [strTrim current]] else acc
  | '"' :: '"' :: rest2, current, row, true, acc =>
    parseCsvAux rest2 (current.push '"') row true acc
  | '"' :: rest, current, row, inQuotes, acc =>
    if inQuotes then parseCsvAux rest current row false acc
    else parseCsvAux rest current row true acc
  | c :: rest, current, row, inQuotes, acc =>
    if c = ',' ∧ inQuotes = false then
      parseCsvAux rest "" (row ++ [strTrim current]) inQuotes acc
    else if (c = '\n' ∨ c = '\r') ∧ inQuotes = false then
      (if current ≠ "" ∨ row ≠ [] then
        parseCsvAux rest "" [] inQuotes (acc ++ [row ++ [strTrim current]])
      else parseCsvAux rest "" [] inQuotes acc)
    else parseCsvAux rest (current.push c) row inQuotes acc

/-- Embeds `parseCsv` (page.tsx). -/
def parseCsv (text : String) : List (List String) :=
  (parseCsvAux text.toList "" [] false []).filter (fun r => r.any (fun cell => 0 < cell.length))

/-- Column lookup in the lowercased header of stores_mx.csv. -/
def findCol (header : List String) (name : String) : Except String Nat :=
  match header.findIdx? (fun h => h == strLower name) with
  | some i => .ok i
  | Option.none => .error ("Columna requerida faltante en stores_mx.csv: " ++ name)

structure StoreColIdx where
  storeId : Nat
  brand : Nat
  region : Nat
  city : Nat
  commercial : Nat
  segment : Nat
  opsZone : Nat
  gmv30 : Nat
  gmv7 : Option Nat

/-- Embeds the row loop of `parseStoresCsv` (page.tsx); the first
invalid row throws, aborting the whole parse. -/
def parseStoreRows (idx : StoreColIdx) : List (List String) → List String →
    Except String (List StoreCsvRow)
  | [], _ => .ok []
  | row :: rest, seen =>
    if row.length = 0 then parseStoreRows idx rest seen
    else
      let storeId := strTrim (row.getD idx.storeId "")
      if storeId = "" then .error "Se encontró una fila en stores_mx.csv sin store_id."
      else if seen.contains storeId then
        .error ("store_id duplicado en stores_mx.csv: " ++ storeId ++ ". Debe ser único.")
      else
        let brand := strTrim (row.getD idx.brand "")
        if brand = "" then
          .error ("store_id " ++ storeId
            ++ " en stores_mx.csv: brand es obligatorio y no puede estar vacío.")
        else
          let gmv30Raw := strTrim (row.getD idx.gmv30 "")
          if gmv30Raw = "" then
            .error ("store_id " ++ storeId ++ " en stores_mx.csv: gmv_last_30d es obligatorio.")
          else
            match jsNumber gmv30Raw with
            | Option.none =>
              .error ("store_id " ++ storeId ++ " en stores_mx.csv: gmv_last_30d debe ser numérico.")
            | some gmv30 =>
              if gmv30 < 0 then
                .error ("store_id " ++ storeId
                  ++ " en stores_mx.csv: gmv_last_30d no puede ser negativo.")
              else
                let gmv7res : Except String (Option ℚ) :=
                  match idx.gmv7 with
                  | some i =>
                    let raw7 := strTrim (row.getD i "")
                    if raw7 = "" then .ok Option.none
                    else
                      match jsNumber raw7 with
                      | some v =>
                        if v < 0 then
                          .error ("store_id " ++ storeId
                            ++ " en stores_mx.csv: gmv_last_7d debe ser numérico y no negativo.")
                        else .ok (some v)
                      | Option.none =>
                        .error ("store_id " ++ storeId
                          ++ " en stores_mx.csv: gmv_last_7d debe ser numérico y no negativo.")
                  | Option.none => .ok Option.none
                match gmv7res with
                | .error msg => .error msg
                | .ok gmv7 =>
                  match parseStoreRows idx rest (seen ++ [storeId]) with
                  | .error msg => .error msg
                  | .ok restRows =>
                    .ok ({ store_id := storeId
                           brand := brand
                           region := row.getD idx.region ""
                           city := row.getD idx.city ""
                           commercial := row.getD idx.commercial ""
                           segment := row.getD idx.segment ""
                           ops_zone := row.getD idx.opsZone ""
                           gmv_last_30d := gmv30
                           gmv_last_7d := gmv7 } :: restRows)

/-- Embeds `parseStoresCsv` (page.tsx). -/
def parseStoresCsv (text : String) : Except String (List StoreCsvRow) := do
  let rows := parseCsv text
  if rows.length < 2 then throw "CSV de tiendas vacío o sin encabezados."
  else
    let header := (rows.headD []).map (fun h => strLower (strTrim h))
    let idxStoreId ← findCol header "store_id"
    let idxBrand ← findCol header "brand"
    let idxRegion ← findCol header "region"
    let idxCity ← findCol header "city"
    let idxCommercial ← findCol header "commercial"
    let idxSegment ← findCol header "segment"
    let idxOpsZone ← findCol header "ops_zone"
    let idxGmv30 ← findCol header "gmv_last_30d"
    let idxGmv7 := header.findIdx? (fun h => h == "gmv_last_7d")
    parseStoreRows
      ⟨idxStoreId, idxBrand, idxRegion, idxCity, idxCommercial, idxSegment, idxOpsZone,
        idxGmv30, idxGmv7⟩
      (rows.drop 1) []

/-! ## Drilldown aggregation (city level) and table view risk badge -/

inductive RiskLevel
  | none
  | risk
  | critical
deriving DecidableEq

structure CityRow where
  city : String
  targetStores : Nat
  storesWithPromo : Nat
  fillRate : ℚ
  promosCreated : Nat
  gapStores : Int
  riskLevel : RiskLevel
  gmvTarget : ℚ
  gmvCovered : ℚ
  gmvCoverage : ℚ
  gmvGap : ℚ
deriving DecidableEq

/-- Ascending-by-fill-rate order of the city rows sort (the stable
`sort((a, b) => a.fillRate - b.fillRate)`). -/
def cityFillRel (a b : CityRow) : Prop := a.fillRate ≤ b.fillRate

instance : DecidableRel cityFillRel := fun a b => Rat.instDecidableLe a.fillRate b.fillRate

/-- The risk-level branch, written verbatim at both call sites of the
source (the drilldown city rows and the table view rows): when the badge
is shown, `risk` for coverage below 0.1, `critical` for coverage below
0.3, otherwise `none`. -/
def riskClassify (showRisk : Bool) (coverage : ℚ) : RiskLevel :=
  if showRisk then
    (if coverage < 1/10 then RiskLevel.risk
     else if coverage < 3/10 then RiskLevel.critical
     else RiskLevel.none)
  else RiskLevel.none

/-- The show-risk gate of the drilldown city rows (computed from the
event only, hence identical for every city row of the event). -/
def drilldownShowRisk (todayStart : Int) (ev : Option EventWithMetrics) : Bool :=
  let daysToStart : ℚ :=
    match ev with
    | some m => m.daysToStart
    | Option.none => 0
  let isFinished :=
    match ev with
    | some m => decide (toStartOfDay m.endDate < todayStart)
    | Option.none => false
  let isOngoing :=
    match ev with
    | some m =>
      decide (toStartOfDay m.startDate ≤ todayStart) && decide (todayStart ≤ toStartOfDay m.endDate)
    | Option.none => false
  !isFinished && (decide (daysToStart ≤ 7) || isOngoing)

/-- One city row of the drilldown (the body of the `cityRows` map). -/
def cityRowFor (targetStoreIds : List String) (hasTargets : Bool)
    (storesWithPromoSet : List String) (storesInScope : List StoreCsvRow)
    (eventCampaigns : List (Int × String)) (todayStart : Int)
    (ev : Option EventWithMetrics) (city : String) : CityRow :=
  let cityStores := storesInScope.filter (fun s => s.city == city)
  let targetCount :=
    if hasTargets then (cityStores.filter (fun s => targetStoreIds.contains s.store_id)).length
    else cityStores.length
  let withPromo := (cityStores.filter (fun s => storesWithPromoSet.contains s.store_id)).length
  let fillRate : ℚ := if 0 < targetCount then (withPromo : ℚ) / targetCount * 100 else 0
  let gmvTarget : ℚ := cityStores.foldl (fun acc s => acc + s.gmv_last_30d) 0
  let gmvCovered : ℚ :=
    (cityStores.filter (fun s => storesWithPromoSet.contains s.store_id)).foldl
      (fun acc s => acc + s.gmv_last_30d) 0
  { city := city
    targetStores := targetCount
    storesWithPromo := withPromo
    fillRate := fillRate
    promosCreated :=
      (eventCampaigns.filter (fun c =>
        decide (c.1 ≤ todayStart) && cityStores.any (fun s => s.store_id == c.2))).length
    gapStores := max ((targetCount : Int) - withPromo) 0
    riskLevel := riskClassify (drilldownShowRisk todayStart ev) (fillRate / 100)
    gmvTarget := gmvTarget
    gmvCovered := gmvCovered
    gmvCoverage := if 0 < gmvTarget then gmvCovered / gmvTarget * 100 else 0
    gmvGap := max (gmvTarget - gmvCovered) 0 }

/-- Embeds the `cityRows` computation of the event drilldown
(`DrilldownPanel`, page.tsx): partition the in-scope store set by city,
derive target count, with-promo count, fill rate, promos created, GMV
figures and the risk classification, then sort ascending by fill rate.
`targetStoreIds` is `targetsByEvent.get(eventId)` (empty when the event
has no surviving targets), `eventCampaigns` is
`campaignsByEventId.get(eventId) ?? []`, and `ev` is
`eventMap.get(eventId)`. -/
def drilldownCityRows (stores : List StoreCsvRow) (targetStoreIds : List String)
    (filteredStoreIds : Option (List String)) (eventCampaigns : List (Int × String))
    (todayStart : Int) (ev : Option EventWithMetrics) : List CityRow :=
  let hasTargets := !targetStoreIds.isEmpty
  let storesWithPromoSet :=
    jsSetOf ((eventCampaigns.filter (fun c => decide (c.1 ≤ todayStart))).map (fun c => c.2))
  let storesInScope :=
    if hasTargets then stores.filter (fun s => targetStoreIds.contains s.store_id)
    else
      stores.filter (fun s =>
        match filteredStoreIds with
        | Option.none => true
        | some f => f.contains s.store_id)
  let cities := jsSetOf (storesInScope.map (fun s => s.city))
  let rows := cities.map
    (cityRowFor targetStoreIds hasTargets storesWithPromoSet storesInScope eventCampaigns
      todayStart ev)
  rows.insertionSort cityFillRel

structure EventTimeline where
  category : String
  isFinished : Bool
  isOngoing : Bool
  isFuture : Bool
deriving DecidableEq

/-- Embeds `getEventTimeline` (page.tsx). -/
def getEventTimeline (today : Int) (e : EventWithMetrics) : EventTimeline :=
  let todayStart := toStartOfDay today
  let start := toStartOfDay e.startDate
  let stop := toStartOfDay e.endDate
  let isFinished := decide (stop < todayStart)
  let isOngoing := decide (start ≤ todayStart) && decide (todayStart ≤ stop)
  let isFuture := decide (todayStart < start)
  { category := if isOngoing then "ongoing" else if isFuture then "future" else "finished"
    isFinished := isFinished
    isOngoing := isOngoing
    isFuture := isFuture }

/-- Embeds the risk-badge classification of one event row of the table
view (`TableView`, page.tsx). -/
def tableRowRiskLevel (today : Int) (e : EventWithMetrics) : RiskLevel :=
  let timeline := getEventTimeline today e
  let coverage := e.fillRate / 100
  let showRiskBadge := !timeline.isFinished && (decide (e.daysToStart ≤ 7) || timeline.isOngoing)
  riskClassify showRiskBadge coverage

/-! ## Theorems: snapshot store read path -/

theorem pickClosest_cons (d : α → Int) (b a : α) (l : List α) :
    pickClosest d b (a :: l) = pickClosest d (if d a < d b then a else b) l := rfl

theorem pickClosest_min (d : α → Int) (l : List α) (b : α) :
    ∀ x ∈ b :: l, d (pickClosest d b l) ≤ d x := by
  induction l generalizing b with
  | nil =>
    intro x hx
    rw [List.mem_singleton] at hx
    subst hx
    exact le_refl _
  | cons a l ih =>
    intro x hx
    rw [pickClosest_cons]
    have hble : d (if d a < d b then a else b) ≤ d b := by split <;> omega
    have hale : d (if d a < d b then a else b) ≤ d a := by split <;> omega
    have hhead := ih (if d a < d b then a else b) _ (List.mem_cons_self _ _)
    rcases List.mem_cons.mp hx with rfl | hx2
    · exact le_trans hhead hble
    rcases List.mem_cons.mp hx2 with rfl | hmem
    · exact le_trans hhead hale
    · exact ih _ _ (List.mem_cons_of_mem _ hmem)

theorem pickClosest_split (d : α → Int) (l : List α) (b : α) :
    ∃ l1 l2, b :: l = l1 ++ pickClosest d b l :: l2
      ∧ (∀ x ∈ l1, d (pickClosest d b l) < d x)
      ∧ (∀ x ∈ l2, d (pickClosest d b l) ≤ d x) := by
  induction l generalizing b with
  | nil => exact ⟨[], [], rfl, by simp, by simp⟩
  | cons a l ih =>
    rw [pickClosest_cons]
    by_cases h : d a < d b
    · rw [if_pos h]
      obtain ⟨l1, l2, heq, h1, h2⟩ := ih a
      have hra : d (pickClosest d a l) ≤ d a :=
        pickClosest_min d l a _ (List.mem_cons_self _ _)
      refine ⟨b :: l1, l2, ?_, ?_, h2⟩
      · rw [List.cons_append, ← heq]
      · intro x hx
        rcases List.mem_cons.mp hx with rfl | hx2
        · omega
        · exact h1 x hx2
    · rw [if_neg h]
      obtain ⟨l1, l2, heq, h1, h2⟩ := ih b
      cases l1 with
      | nil =>
        rw [List.nil_append] at heq
        injection heq with hb hl
        refine ⟨[], a :: l, ?_, by simp, ?_⟩
        · rw [List.nil_append, ← hb]
        · intro x hx
          rcases List.mem_cons.mp hx with rfl | hx2
          · rw [← hb]; omega
          · exact h2 x (hl ▸ hx2)
      | cons c l1' =>
        rw [List.cons_append] at heq
        injection heq with hc hl
        subst hc
        have hdb : d (pickClosest d b l) < d b := h1 _ (List.mem_cons_self _ _)
        refine ⟨b :: a :: l1', l2, ?_, ?_, h2⟩
        · rw [List.cons_append, List.cons_append, ← hl]
        · intro x hx
          rcases List.mem_cons.mp hx with rfl | hx2
          · exact hdb
          rcases List.mem_cons.mp hx2 with rfl | hmem
          · omega
          · exact h1 x (List.mem_cons_of_mem _ hmem)

theorem pickClosest_mem (d : α → Int) (l : List α) (b : α) :
    pickClosest d b l ∈ b :: l := by
  obtain ⟨l1, l2, heq, -, -⟩ := pickClosest_split d l b
  rw [heq]
  exact List.mem_append_right _ (List.mem_cons_self _ _)

theorem findClosest_eq_match (hist : List EventSnapshotRow) (eid : String) (t tol : Int) :
    findClosestSnapshot hist eid t (some tol) =
      (match hist.filter (fun r => decide (|r.snapshot_at - t| ≤ tol) && r.event_id == eid) with
       | [] => Option.none
       | b :: rest => some (pickClosest (fun r => |r.snapshot_at - t|) b rest)) := by
  unfold findClosestSnapshot
  rw [← List.filter_filter]
  by_cases h : (hist.filter (fun r => r.event_id == eid)).isEmpty
  · simp only [if_pos h]
    rw [List.isEmpty_iff] at h
    rw [h]
    simp
  · simp only [if_neg h]
    rfl

theorem findClosest_none_iff (hist : List EventSnapshotRow) (eid : String) (t tol : Int) :
    findClosestSnapshot hist eid t (some tol) = Option.none ↔
      hist.filter (fun r => decide (|r.snapshot_at - t| ≤ tol) && r.event_id == eid) = [] := by
  rw [findClosest_eq_match]
  cases h : hist.filter (fun r => decide (|r.snapshot_at - t| ≤ tol) && r.event_id == eid) <;>
    simp

theorem findClosest_some_split (hist : List EventSnapshotRow) (eid : String) (t tol : Int)
    (r : EventSnapshotRow) (h : findClosestSnapshot hist eid t (some tol) = some r) :
    ∃ l1 l2,
      hist.filter (fun x => decide (|x.snapshot_at - t| ≤ tol) && x.event_id == eid) =
        l1 ++ r :: l2
      ∧ (∀ x ∈ l1, |r.snapshot_at - t| < |x.snapshot_at - t|)
      ∧ (∀ x ∈ l2, |r.snapshot_at - t| ≤ |x.snapshot_at - t|) := by
  rw [findClosest_eq_match] at h
  cases hq : hist.filter (fun x => decide (|x.snapshot_at - t| ≤ tol) && x.event_id == eid) with
  | nil => rw [hq] at h; exact absurd h (by simp)
  | cons b rest =>
    rw [hq] at h
    simp only [Option.some.injEq] at h
    subst h
    obtain ⟨l1, l2, heq, h1, h2⟩ := pickClosest_split (fun x => |x.snapshot_at - t|) rest b
    exact ⟨l1, l2, heq, h1, h2⟩

theorem findClosest_mem (hist : List EventSnapshotRow) (eid : String) (tol : Option Int)
    (t : Int) (r : EventSnapshotRow) (h : findClosestSnapshot hist eid t tol = some r) :
    r ∈ hist ∧ r.event_id = eid := by
  cases tol with
  | some tolv =>
    obtain ⟨l1, l2, heq, -, -⟩ := findClosest_some_split hist eid t tolv r h
    have hrq : r ∈ hist.filter (fun x => decide (|x.snapshot_at - t| ≤ tolv) && x.event_id == eid) := by
      rw [heq]
      exact List.mem_append_right _ (List.mem_cons_self _ _)
    have hm := List.mem_filter.mp hrq
    refine ⟨hm.1, ?_⟩
    have := hm.2
    simp only [Bool.and_eq_true, beq_iff_eq] at this
    exact this.2
  | none =>
    unfold findClosestSnapshot at h
    by_cases hempty : (hist.filter (fun x => x.event_id == eid)).isEmpty
    · rw [if_pos hempty] at h
      exact absurd h (by simp)
    · rw [if_neg hempty] at h
      cases hs : hist.filter (fun x => x.event_id == eid) with
      | nil => rw [List.isEmpty_iff] at hempty; exact absurd hs hempty
      | cons b rest =>
        rw [hs] at h
        simp only [Option.some.injEq] at h
        subst h
        have hmem : pickClosest (fun x => |x.snapshot_at - t|) b rest ∈ b :: rest :=
          pickClosest_mem _ _ _
        rw [← hs] at hmem
        have hm := List.mem_filter.mp hmem
        refine ⟨hm.1, ?_⟩
        have := hm.2
        simp only [beq_iff_eq] at this
        exact this

theorem abs_sub_le_iff_between (x t tol : Int) :
    |x - t| ≤ tol ↔ (t - tol ≤ x ∧ x ≤ t + tol) := by
  rw [abs_le]
  omega

/-- C4: `findClosest(eventId, t, tol)` returns null if and only if no
stored snapshot of that event has capture time within `[t - tol, t + tol]`;
otherwise it returns a stored snapshot of that event inside the window
whose capture time minimizes the absolute distance to `t`, the
first-stored row winning on exact ties. -/
theorem c4_findClosest_spec (hist : List EventSnapshotRow) (eid : String) (t tol : Int) :
    (findClosestSnapshot hist eid t (some tol) = Option.none ↔
      ∀ r ∈ hist, r.event_id = eid →
        ¬(t - tol ≤ r.snapshot_at ∧ r.snapshot_at ≤ t + tol))
    ∧ (∀ r, findClosestSnapshot hist eid t (some tol) = some r →
        (r ∈ hist ∧ r.event_id = eid ∧ t - tol ≤ r.snapshot_at ∧ r.snapshot_at ≤ t + tol)
        ∧ (∀ x ∈ hist, x.event_id = eid → t - tol ≤ x.snapshot_at → x.snapshot_at ≤ t + tol →
            |r.snapshot_at - t| ≤ |x.snapshot_at - t|)
        ∧ ∃ l1 l2,
            hist.filter (fun x => decide (|x.snapshot_at - t| ≤ tol) && x.event_id == eid) =
              l1 ++ r :: l2
            ∧ (∀ x ∈ l1, |r.snapshot_at - t| < |x.snapshot_at - t|)
            ∧ (∀ x ∈ l2, |r.snapshot_at - t| ≤ |x.snapshot_at - t|)) := by
  constructor
  · rw [findClosest_none_iff, List.filter_eq_nil_iff]
    constructor
    · intro h r hr heq hint
      have hn := h r hr
      simp only [Bool.and_eq_true, decide_eq_true_eq, beq_iff_eq, not_and] at hn
      exact hn ((abs_sub_le_iff_between _ _ _).mpr hint) heq
    · intro h r hr
      simp only [Bool.and_eq_true, decide_eq_true_eq, beq_iff_eq, not_and]
      intro habs heq
      exact h r hr heq ((abs_sub_le_iff_between _ _ _).mp habs)
  · intro r hr
    obtain ⟨l1, l2, heq, h1, h2⟩ := findClosest_some_split hist eid t tol r hr
    have hrq : r ∈ hist.filter (fun x => decide (|x.snapshot_at - t| ≤ tol) && x.event_id == eid) := by
      rw [heq]
      exact List.mem_append_right _ (List.mem_cons_self _ _)
    have hm := List.mem_filter.mp hrq
    have hp := hm.2
    simp only [Bool.and_eq_true, decide_eq_true_eq, beq_iff_eq] at hp
    have hint := (abs_sub_le_iff_between _ _ _).mp hp.1
    refine ⟨⟨hm.1, hp.2, hint.1, hint.2⟩, ?_, ⟨l1, l2, heq, h1, h2⟩⟩
    intro x hx hxe hx1 hx2
    have hxq : x ∈ hist.filter (fun y => decide (|y.snapshot_at - t| ≤ tol) && y.event_id == eid) := by
      rw [List.mem_filter]
      refine ⟨hx, ?_⟩
      simp only [Bool.and_eq_true, decide_eq_true_eq, beq_iff_eq]
      exact ⟨(abs_sub_le_iff_between _ _ _).mpr ⟨hx1, hx2⟩, hxe⟩
    rw [heq] at hxq
    rcases List.mem_append.mp hxq with hxl | hxr
    · exact le_of_lt (h1 x hxl)
    rcases List.mem_cons.mp hxr with rfl | hxl2
    · exact le_refl _
    · exact h2 x hxl2

def snapRowAt (eid : String) (t : Int) : EventSnapshotRow :=
  ⟨eid, t, 0, 0, 0, 0, 0, 0, 0, 0⟩

def histC4 : List EventSnapshotRow :=
  [snapRowAt "E2" 0, snapRowAt "E1" 90, snapRowAt "E1" 40, snapRowAt "E1" 45]

theorem c4_findClosest_spec_witness :
    findClosestSnapshot histC4 "E1" 50 (some 20) = some (snapRowAt "E1" 45)
    ∧ snapRowAt "E1" 45 ∈ histC4
    ∧ (snapRowAt "E1" 45).event_id = "E1"
    ∧ (∀ x ∈ histC4, x.event_id = "E1" → 30 ≤ x.snapshot_at → x.snapshot_at ≤ 70 →
        |(snapRowAt "E1" 45).snapshot_at - 50| ≤ |x.snapshot_at - 50|) :=
  ⟨by decide,
   (((c4_findClosest_spec histC4 "E1" 50 20).2 (snapRowAt "E1" 45) (by decide)).1).1,
   (((c4_findClosest_spec histC4 "E1" 50 20).2 (snapRowAt "E1" 45) (by decide)).1).2.1,
   by
     have hmin := ((c4_findClosest_spec histC4 "E1" 50 20).2 (snapRowAt "E1" 45) (by decide)).2.1
     intro x hx hxe h1 h2
     exact hmin x hx hxe (by omega) (by omega)⟩

/-! ## Theorems: snapshot store write path -/

theorem mergedRetained_length_le (existing : List EventSnapshotRow)
    (ms : List EventWithMetrics) (now : Int) :
    (snapshotsMergedRetained existing ms now).length ≤ existing.length + ms.length := by
  unfold snapshotsMergedRetained snapshotsAfterDedup
  refine le_trans (List.length_filter_le _ _) ?_
  rw [List.length_append, List.length_map]
  exact Nat.add_le_add_right (List.length_filter_le _ _) _

theorem save_perm_mergedRetained (existing : List EventSnapshotRow)
    (ms : List EventWithMetrics) (now : Int)
    (hlen : (snapshotsMergedRetained existing ms now).length ≤ RETENTION_MAX_ROWS) :
    (saveEventSnapshots existing ms now).Perm (snapshotsMergedRetained existing ms now) := by
  unfold saveEventSnapshots
  rw [List.take_of_length_le
    (by rw [(List.perm_insertionSort snapshotDescRel _).length_eq]; exact hlen)]
  exact List.perm_insertionSort _ _

/-- C5: writing two snapshot batches for the same event within 30
minutes of each other leaves exactly one stored row for that event from
those two writes, the one of the more recent batch.  The length
hypothesis says the merged history fits under the 2000-row cap, so the
truncation step is not involved. -/
theorem c5_dedup_single_row (h0 : List EventSnapshotRow) (m1 m2 : List EventWithMetrics)
    (e : String) (t1 t2 : Int)
    (hm1 : e ∈ m1.map (fun m => m.id))
    (hm2 : (m2.filter (fun m => m.id == e)).length = 1)
    (ht1 : t1 ≤ t2) (ht2 : t2 - t1 ≤ THIRTY_MINS_MS)
    (hlen : (saveEventSnapshots h0 m1 t1).length + m2.length ≤ RETENTION_MAX_ROWS) :
    ((saveEventSnapshots (saveEventSnapshots h0 m1 t1) m2 t2).filter
        (fun r => r.event_id == e && (r.snapshot_at == t1 || r.snapshot_at == t2))).length = 1
    ∧ ∀ r ∈ saveEventSnapshots (saveEventSnapshots h0 m1 t1) m2 t2,
        r.event_id = e → (r.snapshot_at = t1 ∨ r.snapshot_at = t2) → r.snapshot_at = t2 := by
  have hlen2 : (snapshotsMergedRetained (saveEventSnapshots h0 m1 t1) m2 t2).length ≤
      RETENTION_MAX_ROWS :=
    le_trans (mergedRetained_length_le _ _ _) hlen
  have hperm := save_perm_mergedRetained (saveEventSnapshots h0 m1 t1) m2 t2 hlen2
  have hmid : ∃ m ∈ m2, m.id = e := by
    cases hf : m2.filter (fun m => m.id == e) with
    | nil => rw [hf] at hm2; exact absurd hm2 (by simp)
    | cons m rest =>
      have hmem : m ∈ m2.filter (fun m => m.id == e) := by
        rw [hf]; exact List.mem_cons_self _ _
      have hm := List.mem_filter.mp hmem
      exact ⟨m, hm.1, by simpa using hm.2⟩
  have he2 : (m2.map (fun m => m.id)).contains e = true := by
    obtain ⟨m, hmm, hid⟩ := hmid
    exact List.elem_eq_true_of_mem (hid ▸ List.mem_map_of_mem _ hmm)
  -- the rows surviving the dedup pass never satisfy the event/time predicate
  have hded : ∀ r ∈ snapshotsAfterDedup (saveEventSnapshots h0 m1 t1) m2 t2,
      ¬(r.event_id = e ∧ (r.snapshot_at = t1 ∨ r.snapshot_at = t2)) := by
    intro r hr hc
    have hp := List.of_mem_filter hr
    simp only [Bool.not_eq_true', Bool.and_eq_false_iff] at hp
    rcases hp with hp | hp
    · rw [hc.1] at hp
      rw [hp] at he2
      exact absurd he2 (by simp)
    · rw [decide_eq_false_iff_not] at hp
      apply hp
      have hd : (0 : Int) ≤ THIRTY_MINS_MS := by decide
      rcases hc.2 with h | h <;> rw [h] <;> omega
  constructor
  · have hcount := (hperm.filter
      (fun r => r.event_id == e && (r.snapshot_at == t1 || r.snapshot_at == t2))).length_eq
    rw [hcount]
    unfold snapshotsMergedRetained
    rw [List.filter_filter, List.filter_append, List.length_append]
    have hzero : (snapshotsAfterDedup (saveEventSnapshots h0 m1 t1) m2 t2).filter
        (fun a => (a.event_id == e && (a.snapshot_at == t1 || a.snapshot_at == t2))
          && decide (t2 - RETENTION_DAYS * 24 * 60 * 60 * 1000 ≤ a.snapshot_at)) = [] := by
      rw [List.filter_eq_nil_iff]
      intro a ha habs
      simp only [Bool.and_eq_true, beq_iff_eq, Bool.or_eq_true, decide_eq_true_eq] at habs
      exact hded a ha ⟨habs.1.1, habs.1.2⟩
    rw [hzero]
    simp only [List.length_nil, Nat.zero_add]
    rw [← List.countP_eq_length_filter, List.countP_map]
    have hcongr : List.countP
        ((fun a => (a.event_id == e && (a.snapshot_at == t1 || a.snapshot_at == t2))
          && decide (t2 - RETENTION_DAYS * 24 * 60 * 60 * 1000 ≤ a.snapshot_at))
          ∘ (fun m => toSnapshotRow m t2)) m2
        = List.countP (fun m => m.id == e) m2 := by
      refine List.countP_congr ?_
      intro m _
      show ((m.id == e && ((t2 : Int) == t1 || (t2 : Int) == t2))
        && decide (t2 - RETENTION_DAYS * 24 * 60 * 60 * 1000 ≤ t2)) = true ↔ (m.id == e) = true
      have h1 : ((t2 : Int) == t2) = true := by simp
      have h2 : decide (t2 - RETENTION_DAYS * 24 * 60 * 60 * 1000 ≤ t2) = true := by
        rw [decide_eq_true_eq]
        have hd : (0 : Int) ≤ RETENTION_DAYS * 24 * 60 * 60 * 1000 := by decide
        omega
      rw [h1, h2, Bool.or_true, Bool.and_true, Bool.and_true]
    rw [hcongr, List.countP_eq_length_filter]
    exact hm2
  · intro r hr hre hrt
    have hmem : r ∈ snapshotsMergedRetained (saveEventSnapshots h0 m1 t1) m2 t2 :=
      (hperm.mem_iff).mp hr
    unfold snapshotsMergedRetained at hmem
    have hmem2 := List.mem_of_mem_filter hmem
    rcases List.mem_append.mp hmem2 with hd | hn
    · exact absurd ⟨hre, hrt⟩ (hded r hd)
    · obtain ⟨m, -, hfm⟩ := List.mem_map.mp hn
      rw [← hfm]
      rfl

def evRowWith (id : String) (fr : ℚ) : EventWithMetrics :=
  ⟨id, "", "", "", 0, 0, 0, 0, 0, 0, 0, 0, fr, true, 0, 0, 0, 0, 0, 0, 0⟩

theorem c5_dedup_single_row_witness :
    ((saveEventSnapshots (saveEventSnapshots [] [evRowWith "E1" 40] 1000000000)
        [evRowWith "E1" 70] 1001000000).filter
      (fun r => r.event_id == "E1" && (r.snapshot_at == 1000000000 || r.snapshot_at == 1001000000))).length = 1 :=
  (c5_dedup_single_row [] [evRowWith "E1" 40] [evRowWith "E1" 70] "E1" 1000000000 1001000000
    (by decide) (by decide) (by decide) (by decide) (by decide)).1

theorem save_mem_mergedRetained (existing : List EventSnapshotRow)
    (ms : List EventWithMetrics) (now : Int) :
    ∀ r ∈ saveEventSnapshots existing ms now, r ∈ snapshotsMergedRetained existing ms now := by
  intro r hr
  unfold saveEventSnapshots at hr
  have hr2 := List.Sublist.mem hr (List.take_sublist _ _)
  exact ((List.perm_insertionSort _ _).mem_iff).mp hr2

/-- C6: after every snapshot write the stored history has no row whose
capture time is more than 30 days before the write time and at most 2000
rows; every kept row is at least as recent as every merged row that was
evicted; and `findClosest` only ever returns rows of the stored (kept,
retention-respecting) history. -/
theorem c6_retention_bounds (existing : List EventSnapshotRow)
    (ms : List EventWithMetrics) (now : Int) :
    (∀ r ∈ saveEventSnapshots existing ms now,
        now - RETENTION_DAYS * 24 * 60 * 60 * 1000 ≤ r.snapshot_at)
    ∧ (saveEventSnapshots existing ms now).length ≤ RETENTION_MAX_ROWS
    ∧ (∀ r ∈ saveEventSnapshots existing ms now,
        ∀ s ∈ snapshotsMergedRetained existing ms now,
          s ∉ saveEventSnapshots existing ms now → s.snapshot_at ≤ r.snapshot_at)
    ∧ (∀ eid t tol r,
        findClosestSnapshot (saveEventSnapshots existing ms now) eid t tol = some r →
          r ∈ saveEventSnapshots existing ms now
          ∧ now - RETENTION_DAYS * 24 * 60 * 60 * 1000 ≤ r.snapshot_at) := by
  have hret : ∀ r ∈ saveEventSnapshots existing ms now,
      now - RETENTION_DAYS * 24 * 60 * 60 * 1000 ≤ r.snapshot_at := by
    intro r hr
    have hm := save_mem_mergedRetained existing ms now r hr
    unfold snapshotsMergedRetained at hm
    have hp := List.of_mem_filter hm
    rwa [decide_eq_true_eq] at hp
  refine ⟨hret, ?_, ?_, ?_⟩
  · unfold saveEventSnapshots
    rw [List.length_take]
    exact inf_le_left
  · intro r hr s hs hnot
    have hsort : List.Pairwise snapshotDescRel
        ((snapshotsMergedRetained existing ms now).insertionSort snapshotDescRel) :=
      List.sorted_insertionSort snapshotDescRel _
    have hsplit := List.take_append_drop RETENTION_MAX_ROWS
      ((snapshotsMergedRetained existing ms now).insertionSort snapshotDescRel)
    have hs2 : s ∈ (snapshotsMergedRetained existing ms now).insertionSort snapshotDescRel :=
      ((List.perm_insertionSort _ _).mem_iff).mpr hs
    rw [← hsplit] at hs2
    unfold saveEventSnapshots at hr hnot
    rcases List.mem_append.mp hs2 with htk | hdr
    · exact absurd htk hnot
    · rw [← hsplit, List.pairwise_append] at hsort
      exact hsort.2.2 r hr s hdr
  · intro eid t tol r h
    have hm := findClosest_mem _ _ _ _ _ h
    exact ⟨hm.1, hret r hm.1⟩

def histC6 : List EventSnapshotRow := [snapRowAt "E1" 100]

theorem c6_retention_bounds_witness :
    toSnapshotRow (evRowWith "E1" 40) 3000000000000
        ∈ saveEventSnapshots histC6 [evRowWith "E1" 40] 3000000000000
    ∧ 3000000000000 - RETENTION_DAYS * 24 * 60 * 60 * 1000
        ≤ (toSnapshotRow (evRowWith "E1" 40) 3000000000000).snapshot_at :=
  (c6_retention_bounds histC6 [evRowWith "E1" 40] 3000000000000).2.2.2 "E1" 3000000000000
    (some 10) (toSnapshotRow (evRowWith "E1" 40) 3000000000000) (by decide)

/-! ## Theorems: delta calculator -/

theorem findClosest_none_iff_prop (hist : List EventSnapshotRow) (eid : String) (t tol : Int) :
    findClosestSnapshot hist eid t (some tol) = Option.none ↔
      ∀ r ∈ hist, r.event_id = eid → ¬(|r.snapshot_at - t| ≤ tol) := by
  rw [findClosest_none_iff, List.filter_eq_nil_iff]
  constructor
  · intro h r hr he hab
    have hn := h r hr
    simp only [Bool.and_eq_true, decide_eq_true_eq, beq_iff_eq, not_and] at hn
    exact hn hab he
  · intro h r hr
    simp only [Bool.and_eq_true, decide_eq_true_eq, beq_iff_eq, not_and]
    intro hab he
    exact h r hr he hab

theorem eventDeltasFor_fill48 (hist : List EventSnapshotRow) (ev : EventWithMetrics) (now : Int) :
    (eventDeltasFor hist ev now).deltaFillRate48h =
      Option.map (fun s => ev.fillRate - s.fill_rate)
        (findClosestSnapshot hist ev.id (now - 48 * 60 * 60 * 1000) (some TOLERANCE_48H_MS)) := by
  unfold eventDeltasFor
  cases findClosestSnapshot hist ev.id (now - 48 * 60 * 60 * 1000) (some TOLERANCE_48H_MS) <;> rfl

theorem eventDeltasFor_fill7 (hist : List EventSnapshotRow) (ev : EventWithMetrics) (now : Int) :
    (eventDeltasFor hist ev now).deltaFillRate7d =
      Option.map (fun s => ev.fillRate - s.fill_rate)
        (findClosestSnapshot hist ev.id (now - 7 * 24 * 60 * 60 * 1000) (some TOLERANCE_7D_MS)) := by
  unfold eventDeltasFor
  cases findClosestSnapshot hist ev.id (now - 7 * 24 * 60 * 60 * 1000) (some TOLERANCE_7D_MS) <;> rfl

theorem eventDeltasFor_gmv48 (hist : List EventSnapshotRow) (ev : EventWithMetrics) (now : Int) :
    (eventDeltasFor hist ev now).deltaGmvCoverage48h =
      if 0 < ev.gmvTarget then
        Option.map (fun s => ev.gmvCoverage - s.gmv_coverage)
          (findClosestSnapshot hist ev.id (now - 48 * 60 * 60 * 1000) (some TOLERANCE_48H_MS))
      else Option.none := by
  unfold eventDeltasFor
  cases findClosestSnapshot hist ev.id (now - 48 * 60 * 60 * 1000) (some TOLERANCE_48H_MS) <;>
    by_cases h : 0 < ev.gmvTarget <;> simp [h]

theorem eventDeltasFor_gmv7 (hist : List EventSnapshotRow) (ev : EventWithMetrics) (now : Int) :
    (eventDeltasFor hist ev now).deltaGmvCoverage7d =
      if 0 < ev.gmvTarget then
        Option.map (fun s => ev.gmvCoverage - s.gmv_coverage)
          (findClosestSnapshot hist ev.id (now - 7 * 24 * 60 * 60 * 1000) (some TOLERANCE_7D_MS))
      else Option.none := by
  unfold eventDeltasFor
  cases findClosestSnapshot hist ev.id (now - 7 * 24 * 60 * 60 * 1000) (some TOLERANCE_7D_MS) <;>
    by_cases h : 0 < ev.gmvTarget <;> simp [h]

/-- C7: the delta calculator reports the 48-hour (resp. 7-day) fill-rate
delta as the current fill rate minus the fill rate of the snapshot found
by `findClosest` near `now - 48h` with tolerance 24h (resp. `now - 7d`
with tolerance 2 days), null exactly when no qualifying snapshot of the
event exists; the GMV-coverage deltas are additionally null unless the
current GMV target of the event is positive. -/
theorem c7_eventDeltas_spec (hist : List EventSnapshotRow) (ev : EventWithMetrics) (now : Int) :
    ((eventDeltasFor hist ev now).deltaFillRate48h =
        Option.map (fun s => ev.fillRate - s.fill_rate)
          (findClosestSnapshot hist ev.id (now - 48 * 60 * 60 * 1000) (some TOLERANCE_48H_MS)))
    ∧ ((eventDeltasFor hist ev now).deltaFillRate7d =
        Option.map (fun s => ev.fillRate - s.fill_rate)
          (findClosestSnapshot hist ev.id (now - 7 * 24 * 60 * 60 * 1000) (some TOLERANCE_7D_MS)))
    ∧ ((eventDeltasFor hist ev now).deltaFillRate48h = Option.none ↔
        ∀ r ∈ hist, r.event_id = ev.id →
          ¬(|r.snapshot_at - (now - 48 * 60 * 60 * 1000)| ≤ TOLERANCE_48H_MS))
    ∧ ((eventDeltasFor hist ev now).deltaFillRate7d = Option.none ↔
        ∀ r ∈ hist, r.event_id = ev.id →
          ¬(|r.snapshot_at - (now - 7 * 24 * 60 * 60 * 1000)| ≤ TOLERANCE_7D_MS))
    ∧ (¬0 < ev.gmvTarget →
        (eventDeltasFor hist ev now).deltaGmvCoverage48h = Option.none
        ∧ (eventDeltasFor hist ev now).deltaGmvCoverage7d = Option.none)
    ∧ (0 < ev.gmvTarget →
        (eventDeltasFor hist ev now).deltaGmvCoverage48h =
          Option.map (fun s => ev.gmvCoverage - s.gmv_coverage)
            (findClosestSnapshot hist ev.id (now - 48 * 60 * 60 * 1000) (some TOLERANCE_48H_MS))
        ∧ (eventDeltasFor hist ev now).deltaGmvCoverage7d =
          Option.map (fun s => ev.gmvCoverage - s.gmv_coverage)
            (findClosestSnapshot hist ev.id (now - 7 * 24 * 60 * 60 * 1000) (some TOLERANCE_7D_MS))) := by
  refine ⟨eventDeltasFor_fill48 hist ev now, eventDeltasFor_fill7 hist ev now, ?_, ?_, ?_, ?_⟩
  · rw [eventDeltasFor_fill48, ← findClosest_none_iff_prop hist ev.id
      (now - 48 * 60 * 60 * 1000) TOLERANCE_48H_MS]
    cases findClosestSnapshot hist ev.id (now - 48 * 60 * 60 * 1000) (some TOLERANCE_48H_MS) <;>
      simp
  · rw [eventDeltasFor_fill7, ← findClosest_none_iff_prop hist ev.id
      (now - 7 * 24 * 60 * 60 * 1000) TOLERANCE_7D_MS]
    cases findClosestSnapshot hist ev.id (now - 7 * 24 * 60 * 60 * 1000) (some TOLERANCE_7D_MS) <;>
      simp
  · intro h
    rw [eventDeltasFor_gmv48, eventDeltasFor_gmv7, if_neg h, if_neg h]
    exact ⟨rfl, rfl⟩
  · intro h
    rw [eventDeltasFor_gmv48, eventDeltasFor_gmv7, if_pos h, if_pos h]
    exact ⟨rfl, rfl⟩

def evC7 : EventWithMetrics :=
  ⟨"E1", "", "", "", 0, 0, 0, 0, 0, 0, 0, 0, 70, true, 0, 0, 0, 5, 3, 60, 2⟩

def histC7 : List EventSnapshotRow :=
  [⟨"E1", 300000000000 - 172800000, 0, 0, 40, 0, 0, 0, 0, 50⟩]

theorem c7_eventDeltas_spec_witness :
    (eventDeltasFor histC7 evC7 300000000000).deltaGmvCoverage48h =
        Option.map (fun s => evC7.gmvCoverage - s.gmv_coverage)
          (findClosestSnapshot histC7 evC7.id (300000000000 - 48 * 60 * 60 * 1000)
            (some TOLERANCE_48H_MS))
    ∧ (eventDeltasFor histC7 evC7 300000000000).deltaGmvCoverage48h = some 10 :=
  ⟨((c7_eventDeltas_spec histC7 evC7 300000000000).2.2.2.2.2 (by with_unfolding_all decide)).1,
   by with_unfolding_all decide⟩

/-! ## Theorems: metrics engine -/

theorem mapExcept_cons (f : α → Except ε β) (a : α) (l : List α) :
    mapExcept f (a :: l) =
      (f a).bind (fun b => (mapExcept f l).bind (fun bs => .ok (b :: bs))) := rfl

theorem mapExcept_ok_mem {f : α → Except ε β} {l : List α} {bs : List β}
    (h : mapExcept f l = .ok bs) : ∀ b ∈ bs, ∃ a ∈ l, f a = .ok b := by
  induction l generalizing bs with
  | nil =>
    intro b hb
    unfold mapExcept at h
    injection h with h2
    subst h2
    exact absurd hb (List.not_mem_nil b)
  | cons a as ih =>
    intro b hb
    rw [mapExcept_cons] at h
    cases hfa : f a with
    | error e => rw [hfa] at h; exact Except.noConfusion h
    | ok b0 =>
      rw [hfa] at h
      cases hrest : mapExcept f as with
      | error e => rw [hrest] at h; exact Except.noConfusion h
      | ok bs0 =>
        rw [hrest] at h
        have h2 : b0 :: bs0 = bs := by
          have : Except.ok (ε := ε) (b0 :: bs0) = Except.ok bs := h
          injection this
        subst h2
        rcases List.mem_cons.mp hb with rfl | hb2
        · exact ⟨a, List.mem_cons_self _ _, hfa⟩
        · obtain ⟨a2, ha2, hfa2⟩ := ih hrest b hb2
          exact ⟨a2, List.mem_cons_of_mem _ ha2, hfa2⟩

theorem mapExcept_ok_of_forall {f : α → Except ε β} {l : List α}
    (h : ∀ a ∈ l, ∃ b, f a = .ok b) :
    ∃ bs, mapExcept f l = .ok bs ∧ bs.length = l.length := by
  induction l with
  | nil => exact ⟨[], rfl, rfl⟩
  | cons a as ih =>
    obtain ⟨b, hb⟩ := h a (List.mem_cons_self _ _)
    obtain ⟨bs, hbs, hlen⟩ := ih (fun a2 ha2 => h a2 (List.mem_cons_of_mem _ ha2))
    refine ⟨b :: bs, ?_, by simp [hlen]⟩
    rw [mapExcept_cons, hb, hbs]
    rfl

theorem mapExcept_congr {f g : α → Except ε β} {l : List α} (h : ∀ a ∈ l, f a = g a) :
    mapExcept f l = mapExcept g l := by
  induction l with
  | nil => rfl
  | cons a as ih =>
    rw [mapExcept_cons, mapExcept_cons, h a (List.mem_cons_self _ _),
      ih (fun x hx => h x (List.mem_cons_of_mem _ hx))]

theorem computeRow_ok (events : List EventCsvRow) (campaigns : List CampaignCsvRow)
    (opts : MetricsOptions) (ts : Int) (e : EventCsvRow) (s en : Int)
    (hs : parseDate e.start_date = some s) (hen : parseDate e.end_date = some en) :
    computeRow events campaigns opts ts e =
      .ok (buildEventRow e s en ts (eventCampaignsFor events campaigns opts e.event_id)
        (targetSetFor events opts e.event_id) opts.storesById) := by
  unfold computeRow
  rw [hs, hen]

theorem computeRow_mem_ok (events : List EventCsvRow) (campaigns : List CampaignCsvRow)
    (opts : MetricsOptions) (ts : Int) (e : EventCsvRow) (r : EventWithMetrics)
    (h : computeRow events campaigns opts ts e = .ok r) :
    ∃ s en, parseDate e.start_date = some s ∧ parseDate e.end_date = some en ∧
      r = buildEventRow e s en ts (eventCampaignsFor events campaigns opts e.event_id)
        (targetSetFor events opts e.event_id) opts.storesById := by
  unfold computeRow at h
  cases hs : parseDate e.start_date with
  | none => rw [hs] at h; exact Except.noConfusion h
  | some s =>
    rw [hs] at h
    cases hen : parseDate e.end_date with
    | none => rw [hen] at h; exact Except.noConfusion h
    | some en =>
      rw [hen] at h
      have h2 : buildEventRow e s en ts (eventCampaignsFor events campaigns opts e.event_id)
          (targetSetFor events opts e.event_id) opts.storesById = r := by injection h
      exact ⟨s, en, rfl, rfl, h2.symm⟩

theorem metricsPct_pos (n : Nat) (d : ℚ) (h : 0 < d) :
    metricsPct n d = (n : ℚ) / d * 100 := if_pos h

theorem metricsPct_not_pos (n : Nat) (d : ℚ) (h : ¬0 < d) : metricsPct n d = 0 := if_neg h

/-- C8: for every metrics row produced by `computeEventMetrics`,
`storesPct` equals `fillRate`, and both equal
`storesToDate / targetStores * 100` when `targetStores > 0` and `0` when
`targetStores = 0`. -/
theorem c8_storesPct_eq_fillRate (events : List EventCsvRow)
    (campaigns : List CampaignCsvRow) (today : Int) (opts : MetricsOptions)
    (rows : List EventWithMetrics)
    (h : computeEventMetrics events campaigns today opts = .ok rows) :
    ∀ r ∈ rows, r.storesPct = r.fillRate
      ∧ (0 < r.targetStores → r.fillRate = (r.storesToDate : ℚ) / r.targetStores * 100)
      ∧ (r.targetStores = 0 → r.fillRate = 0) := by
  intro r hr
  obtain ⟨e, -, hre⟩ := mapExcept_ok_mem h r hr
  obtain ⟨s, en, -, -, hrb⟩ := computeRow_mem_ok _ _ _ _ _ _ hre
  subst hrb
  refine ⟨rfl, ?_, ?_⟩
  · intro hpos
    exact metricsPct_pos _ _ hpos
  · intro hzero
    have hnp : ¬0 < (buildEventRow e s en (toStartOfDay today)
        (eventCampaignsFor events campaigns opts e.event_id)
        (targetSetFor events opts e.event_id) opts.storesById).targetStores := by
      rw [hzero]
      exact lt_irrefl 0
    exact metricsPct_not_pos _ _ hnp

def c8event : EventCsvRow := ⟨"E8", "n", "d", "2026-01-01", "2026-01-02", "Active", 3, 4⟩

def c8row : EventWithMetrics :=
  buildEventRow c8event (mkDateMs 2026 1 1) (mkDateMs 2026 1 2)
    (toStartOfDay (mkDateMs 2026 1 1)) (eventCampaignsFor [c8event] [] MetricsOptions.none "E8")
    (targetSetFor [c8event] MetricsOptions.none "E8") Option.none

set_option maxRecDepth 4000 in
theorem c8_storesPct_eq_fillRate_witness :
    c8row.storesPct = c8row.fillRate
    ∧ c8row.fillRate = (c8row.storesToDate : ℚ) / c8row.targetStores * 100 :=
  have hm := c8_storesPct_eq_fillRate [c8event] [] (mkDateMs 2026 1 1) MetricsOptions.none
    [c8row] rfl c8row (List.mem_cons_self _ _)
  ⟨hm.1, hm.2.1 (by rw [show c8row.targetStores = (4 : ℚ) from rfl]; norm_num)⟩

theorem jsSetAdd_length_le (s : List String) (x : String) :
    (jsSetAdd s x).length ≤ s.length + 1 := by
  unfold jsSetAdd
  split
  · exact Nat.le_succ _
  · rw [List.length_append]
    exact le_refl _

theorem foldl_jsSetAdd_length (l : List String) :
    ∀ init, (l.foldl jsSetAdd init).length ≤ init.length + l.length := by
  induction l with
  | nil => intro init; simp
  | cons a l ih =>
    intro init
    rw [List.foldl_cons]
    refine le_trans (ih (jsSetAdd init a)) ?_
    have hle := jsSetAdd_length_le init a
    rw [List.length_cons]
    omega

theorem jsSetOf_length_le (l : List String) : (jsSetOf l).length ≤ l.length := by
  have h := foldl_jsSetAdd_length l []
  simpa [jsSetOf] using h

theorem buildEventRow_promosToDate (e : EventCsvRow) (s en ts : Int)
    (cs : List (Int × String)) (tg : List String) (sb : Option (List StoreCsvRow)) :
    (buildEventRow e s en ts cs tg sb).promosToDate = (survivingCampaigns cs ts tg).length := rfl

theorem buildEventRow_storesToDate (e : EventCsvRow) (s en ts : Int)
    (cs : List (Int × String)) (tg : List String) (sb : Option (List StoreCsvRow)) :
    (buildEventRow e s en ts cs tg sb).storesToDate =
      (jsSetOf ((survivingCampaigns cs ts tg).map (fun c => c.2))).length := rfl

/-- C10: on every success of `computeEventMetrics`, every returned row
satisfies `storesToDate ≤ promosToDate`: each surviving campaign counts
once toward `promosToDate` and at most one new distinct store toward
`storesToDate`. -/
theorem c10_stores_le_promos (events : List EventCsvRow) (campaigns : List CampaignCsvRow)
    (today : Int) (opts : MetricsOptions) (rows : List EventWithMetrics)
    (h : computeEventMetrics events campaigns today opts = .ok rows) :
    ∀ r ∈ rows, r.storesToDate ≤ r.promosToDate := by
  intro r hr
  obtain ⟨e, -, hre⟩ := mapExcept_ok_mem h r hr
  obtain ⟨s, en, -, -, hrb⟩ := computeRow_mem_ok _ _ _ _ _ _ hre
  subst hrb
  rw [buildEventRow_promosToDate, buildEventRow_storesToDate]
  refine le_trans (jsSetOf_length_le _) ?_
  rw [List.length_map]

def c10event : EventCsvRow := ⟨"EA", "n", "d", "2026-02-01", "2026-02-05", "Active", 2, 3⟩

def c10campaigns : List CampaignCsvRow :=
  [⟨"K1", "EA", "SA", "2026-01-05"⟩, ⟨"K2", "EA", "SA", "2026-01-06"⟩]

def c10row : EventWithMetrics :=
  buildEventRow c10event (mkDateMs 2026 2 1) (mkDateMs 2026 2 5)
    (toStartOfDay (mkDateMs 2026 1 10))
    (eventCampaignsFor [c10event] c10campaigns MetricsOptions.none "EA")
    (targetSetFor [c10event] MetricsOptions.none "EA") Option.none

set_option maxRecDepth 4000 in
theorem c10_stores_le_promos_witness :
    computeEventMetrics [c10event] c10campaigns (mkDateMs 2026 1 10) MetricsOptions.none =
        .ok [c10row]
    ∧ c10row.storesToDate ≤ c10row.promosToDate :=
  ⟨rfl,
   c10_stores_le_promos [c10event] c10campaigns (mkDateMs 2026 1 10) MetricsOptions.none
     [c10row] rfl c10row (List.mem_cons_self _ _)⟩

def c9event : EventCsvRow :=
  ⟨"E1", "Event One", "desc", "2026-03-01", "2026-03-10", "Planned", 10, 5⟩

def c9store : StoreCsvRow :=
  ⟨"S1", "BrandA", "North", "CDMX", "Ana", "Seg", "Z1", 1000, Option.none⟩

def c9campaigns : List CampaignCsvRow :=
  [⟨"C1", "E1", "S1", "2026-01-05"⟩, ⟨"C2", "E1", "S1", "2026-01-06"⟩,
   ⟨"C3", "E1", "S1", "2026-02-01"⟩]

def c9opts : MetricsOptions := ⟨some [c9store], Option.none, [⟨"E1", "S1"⟩]⟩

def c9row : EventWithMetrics :=
  buildEventRow c9event (mkDateMs 2026 3 1) (mkDateMs 2026 3 10)
    (toStartOfDay (mkDateMs 2026 1 10)) (eventCampaignsFor [c9event] c9campaigns c9opts "E1")
    (targetSetFor [c9event] c9opts "E1") c9opts.storesById

/-- C9: on the scenario input — event `E1` with `target_promos = 10` and
`target_stores = 5`, a single valid target store `S1`, and three
campaigns at `S1` of which two are created on or before the as-of date —
`computeEventMetrics` yields exactly one row, with `promosToDate = 2`,
`storesToDate = 1`, `targetStores = 1` (scoped to `S1`),
`fillRate = 100` and `gapPromos = 8`. -/
theorem c9_scenario :
    computeEventMetrics [c9event] c9campaigns (mkDateMs 2026 1 10) c9opts = Except.ok [c9row]
    ∧ c9row.promosToDate = 2
    ∧ c9row.storesToDate = 1
    ∧ c9row.targetStores = 1
    ∧ c9row.fillRate = 100
    ∧ c9row.gapPromos = 8 := by
  refine ⟨rfl, rfl, rfl, ?_, ?_, ?_⟩
  · rw [show c9row.targetStores = ((1 : ℕ) : ℚ) from rfl]
    norm_num
  · rw [show c9row.fillRate = metricsPct 1 ((1 : ℕ) : ℚ) from rfl]
    norm_num [metricsPct]
  · rw [show c9row.gapPromos = max ((10 : ℚ) - ((2 : ℕ) : ℚ)) 0 from rfl]
    norm_num

def c3badEvent : EventCsvRow := ⟨"EB", "Bad", "", "not-a-date", "2026-03-10", "", 1, 1⟩

/-- C3 (counterexample): an event whose `start_date` is not a valid
calendar date makes `computeEventMetrics` throw — no best-effort row is
emitted for it, contrary to the claim. -/
theorem c3_counterexample :
    computeEventMetrics [c3badEvent] [] 0 MetricsOptions.none =
      Except.error "Fecha inválida: not-a-date" := rfl

theorem eventCampaignsFor_cons_invalid (events : List EventCsvRow) (c : CampaignCsvRow)
    (campaigns : List CampaignCsvRow) (opts : MetricsOptions) (eid : String)
    (hc : parseDate c.created_at = Option.none) :
    eventCampaignsFor events (c :: campaigns) opts eid =
      eventCampaignsFor events campaigns opts eid := by
  unfold eventCampaignsFor
  simp only [List.filterMap_cons, hc, Option.map_none', ite_self]

/-- C3 (amended): a campaign whose creation date fails to parse is
silently excluded — dropping it does not change the result — and when
every event date parses, `computeEventMetrics` succeeds with one row per
event; but an invalid event date is fatal to the whole computation (see
the counterexample), not handled per-row. -/
theorem c3_campaign_dates_nonfatal (events : List EventCsvRow)
    (campaigns : List CampaignCsvRow) (today : Int) (opts : MetricsOptions)
    (h : ∀ e ∈ events, (parseDate e.start_date).isSome ∧ (parseDate e.end_date).isSome) :
    (∃ rows, computeEventMetrics events campaigns today opts = .ok rows
      ∧ rows.length = events.length)
    ∧ ∀ c, parseDate c.created_at = Option.none →
        computeEventMetrics events (c :: campaigns) today opts =
          computeEventMetrics events campaigns today opts := by
  constructor
  · apply mapExcept_ok_of_forall
    intro e he
    obtain ⟨h1, h2⟩ := h e he
    rw [Option.isSome_iff_exists] at h1 h2
    obtain ⟨s, hs⟩ := h1
    obtain ⟨en, hen⟩ := h2
    exact ⟨_, computeRow_ok events campaigns opts _ e s en hs hen⟩
  · intro c hc
    unfold computeEventMetrics
    apply mapExcept_congr
    intro e _
    unfold computeRow
    rw [eventCampaignsFor_cons_invalid events c campaigns opts e.event_id hc]

def c3goodEvent : EventCsvRow := ⟨"EG", "g", "", "2026-01-01", "2026-01-02", "", 0, 0⟩

def c3badCampaign : CampaignCsvRow := ⟨"CX", "EG", "S1", "nope"⟩

theorem c3_campaign_dates_nonfatal_witness :
    computeEventMetrics [c3goodEvent] [c3badCampaign] 0 MetricsOptions.none =
      computeEventMetrics [c3goodEvent] [] 0 MetricsOptions.none :=
  (c3_campaign_dates_nonfatal [c3goodEvent] [] 0 MetricsOptions.none (by decide)).2
    c3badCampaign (by decide)

/-! ## Theorems: risk classification (drilldown city rows and table view) -/

/-- C1 (code evaluation): wherever the risk badge is computed — the
drilldown city rows and the table view rows both delegate to the same
verbatim branch `riskClassify` — a shown badge classifies coverage below
0.10 as `risk` and coverage in [0.10, 0.30) as `critical`.  The
specification says the opposite (`critical` below 0.10, `risk` below
0.30): the two labels are swapped in the code. -/
theorem c1_riskLevel_swapped :
    (∀ cov : ℚ, cov < 1/10 → riskClassify true cov = RiskLevel.risk)
    ∧ (∀ cov : ℚ, ¬cov < 1/10 → cov < 3/10 → riskClassify true cov = RiskLevel.critical)
    ∧ (∀ (today : Int) (e : EventWithMetrics),
        tableRowRiskLevel today e =
          riskClassify
            (!(getEventTimeline today e).isFinished
              && (decide (e.daysToStart ≤ 7) || (getEventTimeline today e).isOngoing))
            (e.fillRate / 100))
    ∧ (∀ (stores : List StoreCsvRow) (targetStoreIds : List String)
        (filteredStoreIds : Option (List String)) (eventCampaigns : List (Int × String))
        (todayStart : Int) (ev : Option EventWithMetrics),
        ∀ r ∈ drilldownCityRows stores targetStoreIds filteredStoreIds eventCampaigns
            todayStart ev,
          r.riskLevel = riskClassify (drilldownShowRisk todayStart ev) (r.fillRate / 100)) := by
  refine ⟨?_, ?_, ?_, ?_⟩
  · intro cov h
    unfold riskClassify
    rw [if_pos rfl, if_pos h]
  · intro cov h1 h2
    unfold riskClassify
    rw [if_pos rfl, if_neg h1, if_pos h2]
  · intro today e
    rfl
  · intro stores targetStoreIds filteredStoreIds eventCampaigns todayStart ev r hr
    unfold drilldownCityRows at hr
    have hr2 := (List.perm_insertionSort cityFillRel _).mem_iff.mp hr
    obtain ⟨city, -, hc⟩ := List.mem_map.mp hr2
    rw [← hc]
    rfl

theorem c1_riskLevel_swapped_witness :
    riskClassify true (1/20 : ℚ) = RiskLevel.risk
    ∧ riskClassify true (1/5 : ℚ) = RiskLevel.critical :=
  ⟨c1_riskLevel_swapped.1 (1/20) (by norm_num),
   c1_riskLevel_swapped.2.1 (1/5) (by norm_num) (by norm_num)⟩

/-! ## Theorems: validator and store parsing -/

def s2store : StoreCsvRow := ⟨"S2", "B", "R", "C", "Co", "Seg", "Z", -5, Option.none⟩

/-- C2 (counterexample): `validateData` itself emits no hard error for a
store whose `gmv_last_30d` is negative — its hard errors on this input
are empty; the rejection happens earlier, in `parseStoresCsv`. -/
theorem c2_counterexample : (validateData [] [] [s2store] []).hardErrors = [] := rfl

theorem exceptBind_ok {ε α β : Type} {x : Except ε α} {f : α → Except ε β} {b : β}
    (h : x.bind f = .ok b) : ∃ a, x = .ok a ∧ f a = .ok b := by
  cases x with
  | error e => exact Except.noConfusion h
  | ok a => exact ⟨a, rfl, h⟩

theorem parseStoreRows_ok_nonneg (idx : StoreColIdx) :
    ∀ (rows : List (List String)) (seen : List String) (out : List StoreCsvRow),
      parseStoreRows idx rows seen = .ok out → ∀ s ∈ out, 0 ≤ s.gmv_last_30d := by
  intro rows
  induction rows with
  | nil =>
    intro seen out h s hs
    unfold parseStoreRows at h
    injection h with h2
    subst h2
    exact absurd hs (List.not_mem_nil s)
  | cons row rest ih =>
    intro seen out h s hs
    unfold parseStoreRows at h
    dsimp only [] at h
    split at h
    · exact ih _ _ h s hs
    · repeat
        first
        | exact Except.noConfusion h
        | split at h
      rename_i x1 gmv30 hjs hneg gmv7res gmv7 hg7 x2 restRows hrest
      injection h with h2
      subst h2
      rcases List.mem_cons.mp hs with rfl | hs2
      · exact le_of_not_lt hneg
      · exact ih _ _ hrest s hs2

def csvS2 : String :=
  "store_id,brand,region,city,commercial,segment,ops_zone,gmv_last_30d\nS2,B,R,C,Co,Seg,Z,-5"

/-- C2 (amended): a negative 30-day GMV is rejected at CSV-parse time,
not by the validator: `parseStoresCsv` throws an error naming the store
(so the batch can never reach adoption), and every successfully parsed
store list has non-negative 30-day GMV on every row. -/
theorem c2_negative_gmv_rejected_at_parse :
    parseStoresCsv csvS2 =
      Except.error "store_id S2 en stores_mx.csv: gmv_last_30d no puede ser negativo."
    ∧ ∀ (text : String) (rows : List StoreCsvRow),
        parseStoresCsv text = .ok rows → ∀ s ∈ rows, 0 ≤ s.gmv_last_30d := by
  constructor
  · rfl
  · intro text rows h
    unfold parseStoresCsv at h
    dsimp only [] at h
    split at h
    · exact Except.noConfusion h
    · obtain ⟨i1, -, h⟩ := exceptBind_ok h
      obtain ⟨i2, -, h⟩ := exceptBind_ok h
      obtain ⟨i3, -, h⟩ := exceptBind_ok h
      obtain ⟨i4, -, h⟩ := exceptBind_ok h
      obtain ⟨i5, -, h⟩ := exceptBind_ok h
      obtain ⟨i6, -, h⟩ := exceptBind_ok h
      obtain ⟨i7, -, h⟩ := exceptBind_ok h
      obtain ⟨i8, -, h⟩ := exceptBind_ok h
      exact parseStoreRows_ok_nonneg _ _ _ _ h

def csvGood : String :=
  "store_id,brand,region,city,commercial,segment,ops_zone,gmv_last_30d,gmv_last_7d\nS9,BrandA,North,CDMX,Ana,Seg,Z1,1000,200"

def goodStoreRow : StoreCsvRow :=
  ⟨"S9", "BrandA", "North", "CDMX", "Ana", "Seg", "Z1", 1000, some 200⟩

theorem c2_negative_gmv_rejected_at_parse_witness :
    parseStoresCsv csvGood = Except.ok [goodStoreRow] ∧ 0 ≤ goodStoreRow.gmv_last_30d :=
  ⟨rfl,
   c2_negative_gmv_rejected_at_parse.2 csvGood [goodStoreRow] rfl goodStoreRow
     (List.mem_cons_self _ _)⟩

end CalendarSpec
